import Mathlib

/-!
Shallow embedding of the CFDStudio geometry/document kernel:
vector and plane math (`acrilib/threed/coords.py`, `acrilib/geometry/plane_helpers.py`),
the primitive mesh factory (`acrilib/primitives/factory.py`),
the DXF tag parser (`acrilib/readers/dxf_reader.py`, `acrilib/geometry/shapes.py`),
and the scene document with its command history
(`app/GUI/main_window.py`, `app/GUI/commands.py`, `acrilib/threed/coords.py`).
Real-valued float computations are modelled over `ℝ` (exact real arithmetic);
the document state and the parser are modelled executably over `ℚ`.
-/

set_option maxRecDepth 4000

attribute [local semireducible] Rat.add Rat.mul Rat.inv Rat.sub

namespace Acri

/-! ## Vector math (`acrilib/threed/coords.py`, real-valued) -/

abbrev Vec3 := ℝ × ℝ × ℝ

/-- Source `dot_product(v1, v2)` from `coords.py`. -/
def dot_product (a b : Vec3) : ℝ :=
  a.1 * b.1 + a.2.1 * b.2.1 + a.2.2 * b.2.2

/-- Source `cross_product(v1, v2)` from `coords.py`. -/
def cross_product (a b : Vec3) : Vec3 :=
  (a.2.1 * b.2.2 - a.2.2 * b.2.1,
   a.2.2 * b.1 - a.1 * b.2.2,
   a.1 * b.2.1 - a.2.1 * b.1)

/-- Source `magnitude(v) = sqrt(dot_product(v, v))` from `coords.py`. -/
noncomputable def magnitude (v : Vec3) : ℝ :=
  Real.sqrt (dot_product v v)

open Classical in
/-- Source `normalize(v)` from `coords.py`: raises (here `none`) exactly when
`magnitude(v) == 0`, otherwise divides every component by the magnitude. -/
noncomputable def normalize (v : Vec3) : Option Vec3 :=
  if magnitude v = 0 then none
  else some (v.1 / magnitude v, v.2.1 / magnitude v, v.2.2 / magnitude v)

/-- Componentwise vector addition (numpy `+` in the plane helpers). -/
def vadd (a b : Vec3) : Vec3 :=
  (a.1 + b.1, a.2.1 + b.2.1, a.2.2 + b.2.2)

/-- Componentwise vector subtraction. -/
def vsub (a b : Vec3) : Vec3 :=
  (a.1 - b.1, a.2.1 - b.2.1, a.2.2 - b.2.2)

/-- Scalar multiple of a vector (numpy `u * U_axis`). -/
def vsmul (c : ℝ) (a : Vec3) : Vec3 :=
  (c * a.1, c * a.2.1, c * a.2.2)

/-- Source `transform_to_plane(u, v, origin, u_axis, v_axis)` from
`acrilib/geometry/plane_helpers.py`: `P_world = P_origin + u * U_axis + v * V_axis`. -/
def transform_to_plane (u v : ℝ) (origin u_axis v_axis : Vec3) : Vec3 :=
  vadd origin (vadd (vsmul u u_axis) (vsmul v v_axis))

/-! ## Primitive mesh factory (`acrilib/primitives/factory.py`) -/

/-- The `GeomData` dictionary returned by the factory functions: `points`,
`cells`, `type` (topology string), and the optional `color` carried by the
origin-marker meshes. -/
structure GeomData where
  points : List Vec3
  cells : List (List Nat)
  topology : String
  color : Option (ℝ × ℝ × ℝ) := none

/-- Source `create_point(u, v, plane_context)`. -/
def create_point (u v : ℝ) (origin u_axis v_axis : Vec3) : GeomData :=
  { points := [transform_to_plane u v origin u_axis v_axis],
    cells := [[0]], topology := "verts" }

/-- Source `create_line(u1, v1, u2, v2, plane_context)`. -/
def create_line (u1 v1 u2 v2 : ℝ) (origin u_axis v_axis : Vec3) : GeomData :=
  { points := [transform_to_plane u1 v1 origin u_axis v_axis,
               transform_to_plane u2 v2 origin u_axis v_axis],
    cells := [[0, 1]], topology := "lines" }

/-- Source `create_triangle(u1, v1, u2, v2, u3, v3, plane_context)`. -/
def create_triangle (u1 v1 u2 v2 u3 v3 : ℝ) (origin u_axis v_axis : Vec3) : GeomData :=
  { points := [transform_to_plane u1 v1 origin u_axis v_axis,
               transform_to_plane u2 v2 origin u_axis v_axis,
               transform_to_plane u3 v3 origin u_axis v_axis],
    cells := [[0, 1, 2]], topology := "polys" }

/-- Source `create_circle(cu, cv, r, plane_context, segments)`: `segments + 1` sampled
points (the loop runs `i in range(segments + 1)`) and one open polyline cell
over all the points. -/
noncomputable def create_circle (cu cv r : ℝ) (origin u_axis v_axis : Vec3)
    (segments : Nat) : GeomData :=
  { points := (List.range (segments + 1)).map (fun (i : ℕ) =>
      let angle : ℝ := 2 * Real.pi * (i : ℝ) / (segments : ℝ)
      transform_to_plane (cu + r * Real.cos angle) (cv + r * Real.sin angle)
        origin u_axis v_axis),
    cells := [List.range (segments + 1)], topology := "lines" }

/-- Source `create_cuboid(size, plane_context)`: the 2D wireframe square, four corners
`(±size, ±size, 0)` in plane coordinates and one closed 5-index cell. -/
def create_cuboid (size : ℝ) (origin u_axis v_axis : Vec3) : GeomData :=
  { points := [transform_to_plane (-size) (-size) origin u_axis v_axis,
               transform_to_plane size (-size) origin u_axis v_axis,
               transform_to_plane size size origin u_axis v_axis,
               transform_to_plane (-size) size origin u_axis v_axis],
    cells := [[0, 1, 2, 3, 0]], topology := "lines" }

/-- The point of a local cube corner `(a, b, c)` mapped through the frame
`(u_axis, v_axis, w_axis)` anchored at `origin`, as in `create_cube_data`. -/
def frame_point (origin u_axis v_axis w_axis : Vec3) (p : ℝ × ℝ × ℝ) : Vec3 :=
  vadd origin (vadd (vsmul p.1 u_axis) (vadd (vsmul p.2.1 v_axis) (vsmul p.2.2 w_axis)))

/-- The fixed list of 6 quad face cells shared by `create_cube_data` and the
cuboid builders. -/
def cube_face_cells : List (List Nat) :=
  [[0, 1, 2, 3], [4, 5, 6, 7], [0, 1, 5, 4], [2, 3, 7, 6], [0, 3, 7, 4], [1, 2, 6, 5]]

/-- The 8 local corners `(±d, ±d, ±d)` of `create_cube_data`, in source order. -/
def cube_corners (dx dy dz : ℝ) : List (ℝ × ℝ × ℝ) :=
  [(-dx, -dy, -dz), (dx, -dy, -dz), (dx, dy, -dz), (-dx, dy, -dz),
   (-dx, -dy, dz), (dx, -dy, dz), (dx, dy, dz), (-dx, dy, dz)]

/-- Source `create_cube_data(side_length, plane_context)`: 8 corners of half-extent
`side_length` mapped through `(u_axis, v_axis, u_axis × v_axis)`, 6 quad cells. -/
def create_cube_data (side_length : ℝ) (origin u_axis v_axis : Vec3) : GeomData :=
  let w_axis := cross_product u_axis v_axis
  { points := (cube_corners side_length side_length side_length).map
      (frame_point origin u_axis v_axis w_axis),
    cells := cube_face_cells, topology := "polys" }

/-- Source `create_origin_marker(size)`: three 2-point line meshes along the world
axes, each carrying a distinct color. -/
def create_origin_marker (size : ℝ) : List GeomData :=
  [{ points := [(0, 0, 0), (size, 0, 0)], cells := [[0, 1]],
     topology := "lines", color := some (1, 0, 0) },
   { points := [(0, 0, 0), (0, size, 0)], cells := [[0, 1]],
     topology := "lines", color := some (0, 1, 0) },
   { points := [(0, 0, 0), (0, 0, size)], cells := [[0, 1]],
     topology := "lines", color := some (0, 0, 1) }]

/-- Modelled from the spec: `create_cuboid_from_dimensions` is called by
`CreateCuboidCommand.execute` but is absent from the source factory module
(only its caller exists under `src/`). Per spec §4.4 it produces the 8 world
points of a box with half-extents `l/2, w/2, h/2` about `center` along the
orientation axes `u, v, w`, with the 6 quad face cells of `cube_solid`. -/
noncomputable def create_cuboid_from_dimensions (l w h : ℝ) (center : Vec3)
    (u_axis v_axis w_axis : Vec3) : GeomData :=
  { points := (cube_corners (l / 2) (w / 2) (h / 2)).map
      (frame_point center u_axis v_axis w_axis),
    cells := cube_face_cells, topology := "polys" }

/-- Modelled from the spec: `create_cuboid_from_corners` is called by
`CreateCuboidCommand.execute` but is absent from the source factory module.
Per spec §4.4 it produces the 8 world points of the axis-aligned box with
opposite corners `p1` and `p2` (world-axis orientation), with the 6 quad face
cells of `cube_solid`. -/
def create_cuboid_from_corners (p1 p2 : Vec3) : GeomData :=
  { points := [(p1.1, p1.2.1, p1.2.2), (p2.1, p1.2.1, p1.2.2),
               (p2.1, p2.2.1, p1.2.2), (p1.1, p2.2.1, p1.2.2),
               (p1.1, p1.2.1, p2.2.2), (p2.1, p1.2.1, p2.2.2),
               (p2.1, p2.2.1, p2.2.2), (p1.1, p2.2.1, p2.2.2)],
    cells := cube_face_cells, topology := "polys" }

/-- The Mesh Data invariant of spec §3: every index in `cells` is below the
number of points. -/
def cellsBound (g : GeomData) : Prop :=
  ∀ cell ∈ g.cells, ∀ i ∈ cell, i < g.points.length

/-! ## DXF parser (`acrilib/readers/dxf_reader.py`, over `ℚ` and `String`) -/

abbrev Q3 := ℚ × ℚ × ℚ

/-- Accumulate a digit string into a natural number. -/
def digitsToNat (cs : List Char) : Nat :=
  cs.foldl (fun a c => a * 10 + (c.toNat - 48)) 0

/-- Python `int(s)` on a stripped string, for the decimal forms the DXF inputs
use: optional sign then a nonempty run of digits (so `int("1.0")` fails). -/
def pyInt (s : String) : Option Int :=
  match s.data with
  | [] => none
  | c :: rest =>
    if c == '-' then
      if rest.isEmpty || !rest.all Char.isDigit then none
      else some (-(digitsToNat rest : Int))
    else if c == '+' then
      if rest.isEmpty || !rest.all Char.isDigit then none
      else some ((digitsToNat rest : Int))
    else
      if (c :: rest).all Char.isDigit then some ((digitsToNat (c :: rest) : Int))
      else none

/-- Python `float(s)` on the plain decimal literals appearing in the inputs:
optional sign, digits, at most one dot, at least one digit overall (exponent
and special forms do not occur in the modelled streams). -/
def pyFloat (s : String) : Option ℚ :=
  let sr : ℚ × List Char :=
    match s.data with
    | c :: rest =>
      if c == '-' then (-1, rest) else if c == '+' then (1, rest) else (1, s.data)
    | [] => (1, [])
  let intPart := sr.2.takeWhile Char.isDigit
  let rest := sr.2.dropWhile Char.isDigit
  match rest with
  | [] =>
    if intPart.isEmpty then none
    else some (sr.1 * (digitsToNat intPart : ℚ))
  | c :: frac =>
    if c == '.' && frac.all Char.isDigit && (!intPart.isEmpty || !frac.isEmpty) then
      some (sr.1 * ((digitsToNat intPart : ℚ) + (digitsToNat frac : ℚ) / (10 : ℚ) ^ frac.length))
    else none

/-- Python `str.strip()` (structural implementation over the character
list, so that it evaluates in the kernel). -/
def pyStrip (s : String) : String :=
  String.mk (((s.data.dropWhile Char.isWhitespace).reverse.dropWhile
    Char.isWhitespace).reverse)

/-- Python `str.upper()` (structural implementation over the character
list). -/
def pyUpper (s : String) : String :=
  String.mk (s.data.map Char.toUpper)

/-- Source `_tag_generator`: consume the (already collected) lines two at a time,
strip both, parse the group code; a malformed pair is skipped whole, and a
stream ending mid-pair drops the dangling code line. -/
def tag_generator : List String → List (Int × String)
  | [] => []
  | [_] => []
  | c :: v :: rest =>
    match pyInt (pyStrip c) with
    | some n => (n, pyStrip v) :: tag_generator rest
    | none => tag_generator rest

/-- One `points` entry of the LWPOLYLINE branch: an opened vertex with its
`x` and an optional `y`. -/
structure LwVertex where
  x : ℚ
  y : Option ℚ
deriving DecidableEq

/-- The mutable accumulators of `_process_entity_tags`: the `entity_dict` and
`temp_coords` entries (one field per key actually written) and the
LWPOLYLINE `points` list. -/
structure EAcc where
  layer : Option String := none
  color : Option Int := none
  x1 : Option ℚ := none
  y1 : Option ℚ := none
  z1 : Option ℚ := none
  x2 : Option ℚ := none
  y2 : Option ℚ := none
  z2 : Option ℚ := none
  cx : Option ℚ := none
  cy : Option ℚ := none
  cz : Option ℚ := none
  radius : Option ℚ := none
  startAngle : Option ℚ := none
  endAngle : Option ℚ := none
  textString : Option String := none
  posX : Option ℚ := none
  posY : Option ℚ := none
  height : Option ℚ := none
  closed : Option Bool := none
  points : List LwVertex := []
deriving DecidableEq

/-- One iteration of the tag loop in `_process_entity_tags`: common codes 8
and 62 first, then the branch for the current entity type; a failed value
conversion skips just that tag. -/
def process_tag (ty : String) (acc : EAcc) (tag : Int × String) : EAcc :=
  let code := tag.1
  let value := tag.2
  if code == 8 then { acc with layer := some value }
  else if code == 62 then
    match pyInt value with
    | some n => { acc with color := some n }
    | none => acc
  else if ty == ("LINE") then
    match pyFloat value with
    | some q =>
      if code == 10 then { acc with x1 := some q }
      else if code == 20 then { acc with y1 := some q }
      else if code == 30 then { acc with z1 := some q }
      else if code == 11 then { acc with x2 := some q }
      else if code == 21 then { acc with y2 := some q }
      else if code == 31 then { acc with z2 := some q }
      else acc
    | none => acc
  else if ty == ("CIRCLE") || ty == ("ARC") then
    match pyFloat value with
    | some q =>
      let acc :=
        if code == 10 then { acc with cx := some q }
        else if code == 20 then { acc with cy := some q }
        else if code == 30 then { acc with cz := some q }
        else if code == 40 then { acc with radius := some q }
        else acc
      if ty == ("ARC") then
        if code == 50 then { acc with startAngle := some q }
        else if code == 51 then { acc with endAngle := some q }
        else acc
      else acc
    | none => acc
  else if ty == ("TEXT") then
    if code == 1 then { acc with textString := some value }
    else
      match pyFloat value with
      | some q =>
        if code == 10 then { acc with posX := some q }
        else if code == 20 then { acc with posY := some q }
        else if code == 40 then { acc with height := some q }
        else acc
      | none => acc
  else if ty == ("LWPOLYLINE") then
    if code == 70 then
      match pyInt value with
      | some n => { acc with closed := some (decide (n % 2 ≠ 0)) }
      | none => acc
    else
      match pyFloat value with
      | some q =>
        if code == 10 then { acc with points := acc.points ++ [{ x := q, y := none }] }
        else if code == 20 then
          match acc.points.getLast? with
          | some last =>
            if last.y.isNone then
              { acc with points := acc.points.dropLast ++ [{ last with y := some q }] }
            else acc
          | none => acc
        else acc
      | none => acc
  else acc

/-- The parsed shape records of `acrilib/geometry/shapes.py`, with the
defaults their constructors apply. -/
inductive Shape where
  | line (layer : String) (color : Int) (startPoint endPoint : Q3)
  | circle (layer : String) (color : Int) (center : Q3) (radius : ℚ)
  | arc (layer : String) (color : Int) (center : Q3) (radius startAngle endAngle : ℚ)
  | lwpolyline (layer : String) (color : Int) (vertices : List Q3) (isClosed : Bool)
  | text (layer : String) (color : Int) (insertionPoint : Q3) (textString : String) (height : ℚ)
deriving DecidableEq

/-- Source `_finalize_entity_geometry` plus the shape constructors of `shapes.py`:
missing coordinates default to 0, radius to 0, angles to 0/360, height to 1,
closed to false; an LWPOLYLINE vertex without a `y` is dropped; an
unrecognized entity type yields no shape. -/
def finalize_entity (ty : String) (acc : EAcc) : Option Shape :=
  let layer := acc.layer.getD ("0")
  let color := acc.color.getD 256
  if ty == ("LINE") then
    some (Shape.line layer color
      (acc.x1.getD 0, acc.y1.getD 0, acc.z1.getD 0)
      (acc.x2.getD 0, acc.y2.getD 0, acc.z2.getD 0))
  else if ty == ("CIRCLE") then
    some (Shape.circle layer color
      (acc.cx.getD 0, acc.cy.getD 0, acc.cz.getD 0) (acc.radius.getD 0))
  else if ty == ("ARC") then
    some (Shape.arc layer color
      (acc.cx.getD 0, acc.cy.getD 0, acc.cz.getD 0) (acc.radius.getD 0)
      (acc.startAngle.getD 0) (acc.endAngle.getD 360))
  else if ty == ("TEXT") then
    some (Shape.text layer color
      (acc.posX.getD 0, acc.posY.getD 0, 0) (acc.textString.getD ("")) (acc.height.getD 1))
  else if ty == ("LWPOLYLINE") then
    some (Shape.lwpolyline layer color
      (acc.points.filterMap (fun p => p.y.map (fun y => (p.x, y, (0 : ℚ)))))
      (acc.closed.getD false))
  else none

/-- Source `_process_entity_tags` on one closed entity buffer: the first tag's value,
uppercased, fixes the type, all tags are folded through the code table, and
the buffer becomes at most one shape. -/
def process_entity_tags (tags : List (Int × String)) : Option Shape :=
  match tags with
  | [] => none
  | (_, v) :: _ => finalize_entity (pyUpper v) (tags.foldl (process_tag (pyUpper v)) {})

/-- Phase 1 of `_parse`: scan for the `(2, "ENTITIES")` tag; reaching the end
of the stream first yields no section. -/
def find_entities_section : List (Int × String) → Option (List (Int × String))
  | [] => none
  | (c, v) :: rest =>
    if c == 2 && v == ("ENTITIES") then some rest else find_entities_section rest

/-- Phase 2 of `_parse`: a code-0 tag closes the previous entity buffer (if
any) and either ends the section (`ENDSEC`) or starts a new buffer; other tags
accumulate; a buffer still open when the stream ends is dropped. -/
def process_entities : List (Int × String) → List (Int × String) → List Shape → List Shape
  | [], _, geom => geom
  | (c, v) :: rest, buffer, geom =>
    if c == 0 then
      let geom' :=
        if buffer.isEmpty then geom
        else
          match process_entity_tags buffer with
          | some s => geom ++ [s]
          | none => geom
      if v == ("ENDSEC") then geom'
      else process_entities rest [(c, v)] geom'
    else process_entities rest (buffer ++ [(c, v)]) geom

/-- Source `_parse` over an already-produced tag stream. -/
def parse_tags (tags : List (Int × String)) : List Shape :=
  match find_entities_section tags with
  | none => []
  | some rest => process_entities rest [] []

/-- The whole `DxfReader` pipeline from raw lines to the Geometry2D shape
list. -/
def parse_dxf (lines : List String) : List Shape :=
  parse_tags (tag_generator lines)

/-! ## Scene document and command history
(`app/GUI/main_window.py`, `app/GUI/commands.py`, `acrilib/threed/coords.py`,
over `ℚ`) -/

/-- Lookup in a Python dict modelled as an association list. -/
def dget {α : Type} : List (String × α) → String → Option α
  | [], _ => none
  | p :: rest, k => if p.1 == k then some p.2 else dget rest k

/-- Python `key in dict`. -/
def dcontains {α : Type} (l : List (String × α)) (k : String) : Bool :=
  (dget l k).isSome

/-- Python `dict[key] = value`: overwrite in place, else append. -/
def dinsert {α : Type} : List (String × α) → String → α → List (String × α)
  | [], k, v => [(k, v)]
  | p :: rest, k, v => if p.1 == k then (k, v) :: rest else p :: dinsert rest k v

/-- Python `del dict[key]` (keys are unique by construction). -/
def dremove {α : Type} : List (String × α) → String → List (String × α)
  | [], _ => []
  | p :: rest, k => if p.1 == k then rest else p :: dremove rest k

/-- Python `str.capitalize()` as used by `ObjectBrowser.add_object`. -/
def strCapitalize (s : String) : String :=
  match s.data with
  | [] => ""
  | c :: rest => String.mk (c.toUpper :: rest.map Char.toLower)

/-- The actor properties the core reads or writes; the actor itself is the
opaque visual reference owned by the presentation layer. -/
structure Actor where
  color : ℚ × ℚ × ℚ
  pointSize : ℚ
  lineWidth : ℚ
  opacity : ℚ
  wireframe : Bool
  visibility : Bool
deriving DecidableEq

/-- The non-highlight actor properties (everything but color and opacity),
used to state that a highlight write touches nothing else. -/
def actorShape (a : Actor) : ℚ × ℚ × Bool × Bool :=
  (a.pointSize, a.lineWidth, a.wireframe, a.visibility)

/-- A persisted plane definition `{origin, normal}`. -/
structure PlaneDef where
  origin : Q3
  normal : Q3
deriving DecidableEq

/-- One row of the `ObjectBrowser` tree: the object id, its (capitalized)
type label, and the category node it sits under. -/
structure BItem where
  objId : String
  typeLabel : String
  category : String
deriving DecidableEq

/-- Source `ObjectBrowser.add_object` (the tree is modelled flat; the category is
recorded on the item). -/
def browser_add (b : List BItem) (objId ty category : String) : List BItem :=
  b ++ [{ objId := objId, typeLabel := strCapitalize ty, category := category }]

/-- Source `ObjectBrowser.remove_object`: removes the first item found by id. -/
def browser_remove : List BItem → String → List BItem
  | [], _ => []
  | i :: rest, k => if i.objId == k then rest else i :: browser_remove rest k

/-- Source `findItems` on the browser: the first item with the given id. -/
def browser_find : List BItem → String → Option BItem
  | [], _ => none
  | i :: rest, k => if i.objId == k then some i else browser_find rest k

/-- Source `LocalCoordinateSystem` from `coords.py`. -/
structure LCS where
  title : String
  origin : Q3
  xAxis : Q3
  yAxis : Q3
  zAxis : Q3
deriving DecidableEq

/-- Source `CoordinateSystemManager` state: the title-keyed map and the active
title. -/
structure CSManager where
  systems : List (String × LCS)
  active_cs_title : String
deriving DecidableEq

/-- The manager's just-constructed state: only "Global", active. -/
def initCSManager : CSManager :=
  { systems := [(("Global"),
      { title := ("Global"), origin := (0, 0, 0), xAxis := (1, 0, 0),
        yAxis := (0, 1, 0), zAxis := (0, 0, 1) })],
    active_cs_title := ("Global") }

/-- Source `CoordinateSystemManager.delete_cs`: removes unconditionally when the
title exists, returns whether it did. -/
def delete_cs (m : CSManager) (title : String) : CSManager × Bool :=
  if dcontains m.systems title then
    ({ m with systems := dremove m.systems title }, true)
  else (m, false)

/-- Cross product over `ℚ` (for the plane-context helper). -/
def qcross (a b : Q3) : Q3 :=
  (a.2.1 * b.2.2 - a.2.2 * b.2.1,
   a.2.2 * b.1 - a.1 * b.2.2,
   a.1 * b.2.1 - a.2.1 * b.1)

/-- Modelled from the spec: stands in for the external `vtk.vtkMath.Perpendiculars`
call of `MainWindow.update_plane_context` (not part of this repository). Per
spec §4.1 the u/v axes are arbitrary but deterministic perpendiculars to the
normal; no claim depends on the particular choice made here. -/
def perpendiculars (n : Q3) : Q3 × Q3 :=
  if n.1 == 0 && n.2.1 == 0 then ((1, 0, 0), (0, 1, 0))
  else ((-(n.2.1), n.1, 0), qcross n (-(n.2.1), n.1, 0))

/-- The kwargs of `CreateObjectCommand` with the defaults its `execute`
applies. -/
structure Props where
  color : ℚ × ℚ × ℚ := (1, 1, 1)
  pointSize : ℚ := 5
  lineWidth : ℚ := 2
  opacity : ℚ := 1
  wireframe : Bool := false
deriving DecidableEq

/-- The command objects of `app/GUI/commands.py`. Each variant carries its
construction-time arguments plus the fields `execute` mutates (the cached
actor, and the state `DeleteObjectCommand` captures). -/
inductive Cmd where
  | createObject (objectId category geomType : String) (planeDef : Option PlaneDef)
      (props : Props) (actor : Option Actor)
  | deleteObject (objId : String) (actorToDelete : Option Actor)
      (category : Option String) (typeLabel : String) (planeDef : Option PlaneDef)
  | setActivePlane (oldActiveId newActiveId : Option String) (actor : Option Actor)
deriving DecidableEq

/-- The `MainWindow` document state: command history and cursor, actor
buffer, plane definitions, active plane id, the current plane context, the
object browser rows and its active-plane marker, and the coordinate-system
manager. -/
structure Doc where
  command_stack : List Cmd
  stack_pointer : Int
  actor_buffer : List (String × Actor)
  plane_definitions : List (String × PlaneDef)
  active_plane_id : Option String
  current_plane_origin : Q3
  current_plane_u_axis : Q3
  current_plane_v_axis : Q3
  object_browser : List BItem
  browser_active_plane_id : Option String
  cs : CSManager
deriving DecidableEq

/-- Source `MainWindow.update_plane_context`: store the plane origin and rederive
the u/v axes from the normal. -/
def update_plane_context (doc : Doc) (pd : PlaneDef) : Doc :=
  let uv := perpendiculars pd.normal
  { doc with current_plane_origin := pd.origin,
             current_plane_u_axis := uv.1,
             current_plane_v_axis := uv.2 }

/-- The highlight write `actor.GetProperty().SetColor(...); SetOpacity(...)`
applied to the buffer entry with the given id. -/
def set_actor_highlight (buf : List (String × Actor)) (k : String)
    (col : ℚ × ℚ × ℚ) (op : ℚ) : List (String × Actor) :=
  buf.map (fun p => if p.1 == k then (p.1, { p.2 with color := col, opacity := op }) else p)

/-- Source `command.execute()` for each command class, returning the command with
its mutated fields, the new document, and the truthiness of the command's
`actor` attribute afterwards (what `MainWindow.execute_command` checks). -/
def execCmd (c : Cmd) (doc : Doc) : Cmd × Doc × Bool :=
  match c with
  | Cmd.createObject objectId category geomType planeDef props actor =>
    match actor with
    | some a =>
      let doc1 := { doc with
        actor_buffer := dinsert doc.actor_buffer objectId a,
        object_browser := browser_add doc.object_browser objectId geomType category }
      let doc2 :=
        if category == ("Planes") then
          match planeDef with
          | some pd => { doc1 with plane_definitions := dinsert doc1.plane_definitions objectId pd }
          | none => doc1
        else doc1
      (Cmd.createObject objectId category geomType planeDef props (some a), doc2, true)
    | none =>
      let a : Actor := { color := props.color, pointSize := props.pointSize,
                         lineWidth := props.lineWidth, opacity := props.opacity,
                         wireframe := props.wireframe, visibility := true }
      let doc1 := { doc with
        actor_buffer := dinsert doc.actor_buffer objectId a,
        object_browser := browser_add doc.object_browser objectId geomType category }
      let doc2 :=
        if category == ("Planes") then
          match planeDef with
          | some pd => { doc1 with plane_definitions := dinsert doc1.plane_definitions objectId pd }
          | none => doc1
        else doc1
      (Cmd.createObject objectId category geomType planeDef props (some a), doc2, true)
  | Cmd.deleteObject objId actorToDelete category typeLabel planeDef =>
    match actorToDelete with
    | none => (Cmd.deleteObject objId none category typeLabel planeDef, doc, false)
    | some a =>
      let captured : Option String × String :=
        match browser_find doc.object_browser objId with
        | some it => (some it.category, it.typeLabel)
        | none => (category, typeLabel)
      let pdPlanes : Option PlaneDef × List (String × PlaneDef) :=
        match dget doc.plane_definitions objId with
        | some p => (some p, dremove doc.plane_definitions objId)
        | none => (planeDef, doc.plane_definitions)
      let doc1 := { doc with
        plane_definitions := pdPlanes.2,
        object_browser := browser_remove doc.object_browser objId,
        actor_buffer := dremove doc.actor_buffer objId }
      (Cmd.deleteObject objId (some a) captured.1 captured.2 pdPlanes.1, doc1, true)
  | Cmd.setActivePlane oldId newId actor =>
    let doc1 :=
      match oldId with
      | some oid =>
        if dcontains doc.actor_buffer oid then
          { doc with actor_buffer := set_actor_highlight doc.actor_buffer oid (4/5, 4/5, 1) (1/5) }
        else doc
      | none => doc
    let doc2 :=
      match newId with
      | some nid =>
        if dcontains doc1.actor_buffer nid then
          let d := { doc1 with actor_buffer := set_actor_highlight doc1.actor_buffer nid (0, 1, 1) (2/5) }
          match dget d.plane_definitions nid with
          | some pd =>
            let d' := update_plane_context d pd
            { d' with active_plane_id := some nid, browser_active_plane_id := some nid }
          | none => d
        else doc1
      | none => doc1
    (Cmd.setActivePlane oldId newId actor, doc2, actor.isSome)

/-- Source `command.undo()` for each command class (`SetActivePlaneCommand.undo`
re-executes a swapped command, as in the source). -/
def undoCmd (c : Cmd) (doc : Doc) : Doc :=
  match c with
  | Cmd.createObject objectId _ _ _ _ actor =>
    match actor with
    | some _ =>
      { doc with
        object_browser := browser_remove doc.object_browser objectId,
        actor_buffer := dremove doc.actor_buffer objectId,
        plane_definitions := dremove doc.plane_definitions objectId }
    | none => doc
  | Cmd.deleteObject objId actorToDelete category typeLabel planeDef =>
    match actorToDelete, category with
    | some a, some cat =>
      let doc1 := { doc with
        object_browser := browser_add doc.object_browser objId typeLabel cat,
        actor_buffer := dinsert doc.actor_buffer objId a }
      match planeDef with
      | some pd => { doc1 with plane_definitions := dinsert doc1.plane_definitions objId pd }
      | none => doc1
    | _, _ => doc
  | Cmd.setActivePlane oldId newId _ =>
    (execCmd (Cmd.setActivePlane newId oldId
      (oldId.bind (fun i => dget doc.actor_buffer i))) doc).2.1

/-- The truthiness of each command's `actor` attribute after `execute` (it
depends only on the command's own captured fields). -/
def cmdOk : Cmd → Bool
  | Cmd.createObject _ _ _ _ _ _ => true
  | Cmd.deleteObject _ a _ _ _ => a.isSome
  | Cmd.setActivePlane _ _ a => a.isSome

/-- The redo-branch truncation at the top of `MainWindow.execute_command`:
`if stack_pointer < len(command_stack) - 1: command_stack = command_stack[:stack_pointer + 1]`. -/
def truncate_redo (doc : Doc) : Doc :=
  if doc.stack_pointer < (doc.command_stack.length : Int) - 1 then
    { doc with command_stack := doc.command_stack.take (doc.stack_pointer + 1).toNat }
  else doc

/-- Source `MainWindow.execute_command`: truncate the redo branch, run the command,
and only on success append it and advance the cursor. -/
def execute_command (doc : Doc) (c : Cmd) : Doc :=
  let doc' := truncate_redo doc
  let r := execCmd c doc'
  if r.2.2 then
    { r.2.1 with command_stack := r.2.1.command_stack ++ [r.1],
                 stack_pointer := r.2.1.stack_pointer + 1 }
  else r.2.1

/-- Source `MainWindow.on_undo`: `none` is the "Nothing to undo." warning branch. -/
def on_undo (doc : Doc) : Option Doc :=
  if 0 ≤ doc.stack_pointer then
    match doc.command_stack.get? doc.stack_pointer.toNat with
    | some c => some { undoCmd c doc with stack_pointer := doc.stack_pointer - 1 }
    | none => none
  else none

/-- Source `MainWindow.on_redo`: `none` is the "Nothing to redo." warning branch;
on redo the stored command is re-executed in place. -/
def on_redo (doc : Doc) : Option Doc :=
  if doc.stack_pointer < (doc.command_stack.length : Int) - 1 then
    let p := doc.stack_pointer + 1
    match doc.command_stack.get? p.toNat with
    | some c =>
      let r := execCmd c { doc with stack_pointer := p }
      some { r.2.1 with command_stack := r.2.1.command_stack.set p.toNat r.1 }
    | none => none
  else none

/-- Source `CreateObjectCommand.__init__` (actor not yet built). -/
def mkCreateObjectCommand (objectId category geomType : String)
    (planeDef : Option PlaneDef) (props : Props) : Cmd :=
  Cmd.createObject objectId category geomType planeDef props none

/-- Source `DeleteObjectCommand.__init__`: captures the buffer entry for the id. -/
def mkDeleteObjectCommand (doc : Doc) (objId : String) : Cmd :=
  Cmd.deleteObject objId (dget doc.actor_buffer objId) none ("Unknown") none

/-- Source `SetActivePlaneCommand.__init__`: captures the current active plane id
and the buffer entry for the target. -/
def mkSetActivePlaneCommand (doc : Doc) (newId : Option String) : Cmd :=
  Cmd.setActivePlane doc.active_plane_id newId
    (newId.bind (fun i => dget doc.actor_buffer i))

/-- Source `MainWindow.on_delete_object_requested`: coordinate-system deletions go
straight to the manager; only an active-plane deletion is rejected; other
known objects are deleted through a command. -/
def on_delete_object_requested (doc : Doc) (objId category : String) : Doc :=
  if category == ("Coordinate Systems") then
    let r := delete_cs doc.cs objId
    if r.2 then
      { doc with cs := r.1, object_browser := browser_remove doc.object_browser objId }
    else { doc with cs := r.1 }
  else if doc.active_plane_id == some objId then doc
  else if dcontains doc.actor_buffer objId then
    execute_command doc (mkDeleteObjectCommand doc objId)
  else doc

/-! ### Concrete fixtures used by counterexamples and witnesses -/

/-- A plain visible actor. -/
def exActor : Actor :=
  { color := (1, 1, 1), pointSize := 5, lineWidth := 2, opacity := 1,
    wireframe := false, visibility := true }

/-- A freshly initialized document. -/
def emptyDoc : Doc :=
  { command_stack := [], stack_pointer := -1, actor_buffer := [],
    plane_definitions := [], active_plane_id := none,
    current_plane_origin := (0, 0, 0), current_plane_u_axis := (1, 0, 0),
    current_plane_v_axis := (0, 1, 0), object_browser := [],
    browser_active_plane_id := none, cs := initCSManager }

/-- Three always-succeeding create commands. -/
def exCmdA : Cmd := mkCreateObjectCommand ("A") ("Primitives") ("lines") none {}

def exCmdB : Cmd := mkCreateObjectCommand ("B") ("Primitives") ("lines") none {}

def exCmdC : Cmd := mkCreateObjectCommand ("C") ("Primitives") ("lines") none {}

/-- A document with a two-command history whose cursor sits on the first
entry (one undo already performed), plus one live object. -/
def exDocHist : Doc :=
  { emptyDoc with command_stack := [exCmdA, exCmdB], stack_pointer := 0,
                  actor_buffer := [(("obj1"), exActor)] }

/-- A document whose active plane is "P". -/
def exDocActive : Doc := { emptyDoc with active_plane_id := some ("P") }

/-- A document with one registered object that has no plane definition. -/
def exDocC10 : Doc := { emptyDoc with actor_buffer := [(("p1"), exActor)] }

/-! ## Theorems -/

theorem magnitude_nonneg (v : Vec3) : 0 ≤ magnitude v :=
  Real.sqrt_nonneg _

theorem magnitude_vsmul (c : ℝ) (v : Vec3) :
    magnitude (vsmul c v) = |c| * magnitude v := by
  unfold magnitude vsmul dot_product
  rw [show c * v.1 * (c * v.1) + c * v.2.1 * (c * v.2.1) + c * v.2.2 * (c * v.2.2)
        = c ^ 2 * (v.1 * v.1 + v.2.1 * v.2.1 + v.2.2 * v.2.2) from by ring]
  rw [Real.sqrt_mul (sq_nonneg c), Real.sqrt_sq_eq_abs]

theorem magnitude_single (c : ℝ) : magnitude (c, 0, 0) = |c| := by
  unfold magnitude dot_product
  rw [show (c, (0 : ℝ), (0 : ℝ)).1 * (c, (0 : ℝ), (0 : ℝ)).1
        + (c, (0 : ℝ), (0 : ℝ)).2.1 * (c, (0 : ℝ), (0 : ℝ)).2.1
        + (c, (0 : ℝ), (0 : ℝ)).2.2 * (c, (0 : ℝ), (0 : ℝ)).2.2 = c ^ 2 from by ring]
  exact Real.sqrt_sq_eq_abs c

/-- C4 counterexample: the vector `(1e-7, 0, 0)` has magnitude strictly
between `0` and `1e-6`, yet `normalize` succeeds on it (the source raises
only on magnitude exactly zero), refuting the `ε = 1e-6` failure threshold. -/
theorem normalize_epsilon_counterexample :
    0 < magnitude ((1 / 10 ^ 7 : ℝ), 0, 0) ∧
    magnitude ((1 / 10 ^ 7 : ℝ), 0, 0) < 1 / 10 ^ 6 ∧
    normalize ((1 / 10 ^ 7 : ℝ), 0, 0) = some (1, 0, 0) := by
  have hmag : magnitude ((1 / 10 ^ 7 : ℝ), 0, 0) = 1 / 10 ^ 7 := by
    rw [magnitude_single]; rw [abs_of_pos]; norm_num
  refine ⟨by rw [hmag]; norm_num, by rw [hmag]; norm_num, ?_⟩
  unfold normalize
  rw [if_neg (by rw [hmag]; norm_num), hmag]
  norm_num

/-- C4 amended: `normalize` fails exactly when the magnitude is zero (not
below `1e-6`); every vector of nonzero magnitude is returned scaled by the
inverse magnitude, which has unit length. -/
theorem normalize_zero_spec :
    (∀ v : Vec3, normalize v = none ↔ magnitude v = 0) ∧
    (∀ v : Vec3, magnitude v ≠ 0 →
      normalize v = some (vsmul (magnitude v)⁻¹ v) ∧
      magnitude (vsmul (magnitude v)⁻¹ v) = 1) := by
  constructor
  · intro v
    unfold normalize
    split <;> simp_all
  · intro v h
    constructor
    · unfold normalize
      rw [if_neg h]
      unfold vsmul
      rw [Option.some.injEq, Prod.ext_iff, Prod.ext_iff]
      refine ⟨?_, ?_, ?_⟩ <;> simp <;> ring
    · rw [magnitude_vsmul, abs_inv, abs_of_nonneg (magnitude_nonneg v)]
      field_simp

/-- C4 witness: instantiating the amended theorem at `(3, 0, 0)`. -/
theorem normalize_zero_spec_witness :
    magnitude ((3 : ℝ), 0, 0) ≠ 0 ∧
    normalize ((3 : ℝ), 0, 0) = some (vsmul (magnitude ((3 : ℝ), 0, 0))⁻¹ ((3 : ℝ), 0, 0)) := by
  have h3 : magnitude ((3 : ℝ), 0, 0) ≠ 0 := by
    rw [magnitude_single]; norm_num
  exact ⟨h3, (normalize_zero_spec.2 _ h3).1⟩

/-- C8: `transform_to_plane` equals `origin + u·u_axis + v·v_axis`, is
linear in `(u, v)` relative to the origin, and maps `(0, 0)` to the
origin. -/
theorem transform_to_plane_affine (origin u_axis v_axis : Vec3)
    (u v a b u1 v1 u2 v2 : ℝ) :
    transform_to_plane u v origin u_axis v_axis
      = vadd origin (vadd (vsmul u u_axis) (vsmul v v_axis)) ∧
    vsub (transform_to_plane (a * u1 + b * u2) (a * v1 + b * v2) origin u_axis v_axis) origin
      = vadd (vsmul a (vsub (transform_to_plane u1 v1 origin u_axis v_axis) origin))
             (vsmul b (vsub (transform_to_plane u2 v2 origin u_axis v_axis) origin)) ∧
    transform_to_plane 0 0 origin u_axis v_axis = origin := by
  refine ⟨rfl, ?_, ?_⟩ <;>
    simp only [transform_to_plane, vadd, vsub, vsmul, Prod.ext_iff] <;>
    refine ⟨by ring, by ring, by ring⟩

/-- C9: every cell index produced by the primitive generators (point, line,
triangle, circle with `segments ≥ 1`, cuboid wireframe, solid cube, origin
marker) is strictly below the mesh's point count. -/
theorem primitive_cells_in_bounds :
    (∀ u v origin u_axis v_axis, cellsBound (create_point u v origin u_axis v_axis)) ∧
    (∀ u1 v1 u2 v2 origin u_axis v_axis,
      cellsBound (create_line u1 v1 u2 v2 origin u_axis v_axis)) ∧
    (∀ u1 v1 u2 v2 u3 v3 origin u_axis v_axis,
      cellsBound (create_triangle u1 v1 u2 v2 u3 v3 origin u_axis v_axis)) ∧
    (∀ cu cv r origin u_axis v_axis segments, 1 ≤ segments →
      cellsBound (create_circle cu cv r origin u_axis v_axis segments)) ∧
    (∀ size origin u_axis v_axis, cellsBound (create_cuboid size origin u_axis v_axis)) ∧
    (∀ s origin u_axis v_axis, cellsBound (create_cube_data s origin u_axis v_axis)) ∧
    (∀ size g, g ∈ create_origin_marker size → cellsBound g) := by
  refine ⟨?_, ?_, ?_, ?_, ?_, ?_, ?_⟩
  · intro u v o ua va cell hc i hi
    have hlen : (create_point u v o ua va).points.length = 1 := rfl
    simp only [create_point, List.mem_singleton] at hc
    subst hc
    simp only [List.mem_singleton] at hi
    omega
  · intro u1 v1 u2 v2 o ua va cell hc i hi
    have hlen : (create_line u1 v1 u2 v2 o ua va).points.length = 2 := rfl
    simp only [create_line, List.mem_singleton] at hc
    subst hc
    simp only [List.mem_cons, List.not_mem_nil, or_false] at hi
    omega
  · intro u1 v1 u2 v2 u3 v3 o ua va cell hc i hi
    have hlen : (create_triangle u1 v1 u2 v2 u3 v3 o ua va).points.length = 3 := rfl
    simp only [create_triangle, List.mem_singleton] at hc
    subst hc
    simp only [List.mem_cons, List.not_mem_nil, or_false] at hi
    omega
  · intro cu cv r o ua va segments _ cell hc i hi
    have hlen : (create_circle cu cv r o ua va segments).points.length = segments + 1 := by
      unfold create_circle
      dsimp only
      rw [List.length_map, List.length_range]
    simp only [create_circle, List.mem_singleton] at hc
    subst hc
    have := List.mem_range.mp hi
    omega
  · intro size o ua va cell hc i hi
    have hlen : (create_cuboid size o ua va).points.length = 4 := rfl
    simp only [create_cuboid, List.mem_singleton] at hc
    subst hc
    simp only [List.mem_cons, List.not_mem_nil, or_false] at hi
    omega
  · intro s o ua va cell hc i hi
    have hlen : (create_cube_data s o ua va).points.length = 8 := rfl
    simp only [create_cube_data, cube_face_cells, List.mem_cons,
      List.not_mem_nil, or_false] at hc
    rcases hc with h | h | h | h | h | h <;> subst h <;>
      simp only [List.mem_cons, List.not_mem_nil, or_false] at hi <;> omega
  · intro size g hg cell hc i hi
    simp only [create_origin_marker, List.mem_cons, List.not_mem_nil, or_false] at hg
    rcases hg with h | h | h <;> subst h <;>
      simp only [List.mem_singleton] at hc <;> subst hc <;>
      simp only [List.mem_cons, List.not_mem_nil, or_false] at hi <;>
      simp only [List.length_cons, List.length_nil] <;> omega

/-- C9 witness: the circle generator at `segments = 4` satisfies the bound. -/
theorem primitive_cells_in_bounds_witness :
    1 ≤ 4 ∧ cellsBound (create_circle 0 0 1 (0, 0, 0) (1, 0, 0) (0, 1, 0) 4) :=
  ⟨by norm_num,
   primitive_cells_in_bounds.2.2.2.1 0 0 1 (0, 0, 0) (1, 0, 0) (0, 1, 0) 4 (by norm_num)⟩

/-- C5 (spec-modelled builders): both cuboid builders return exactly 8 world
points and the 6 four-index face cells of `cube_solid`. -/
theorem cuboid_builders_spec :
    (∀ l w h center u_axis v_axis w_axis,
      (create_cuboid_from_dimensions l w h center u_axis v_axis w_axis).points.length = 8 ∧
      (create_cuboid_from_dimensions l w h center u_axis v_axis w_axis).cells
        = (create_cube_data 1 (0, 0, 0) (1, 0, 0) (0, 1, 0)).cells ∧
      (create_cuboid_from_dimensions l w h center u_axis v_axis w_axis).cells.length = 6 ∧
      ∀ cell ∈ (create_cuboid_from_dimensions l w h center u_axis v_axis w_axis).cells,
        cell.length = 4) ∧
    (∀ p1 p2,
      (create_cuboid_from_corners p1 p2).points.length = 8 ∧
      (create_cuboid_from_corners p1 p2).cells
        = (create_cube_data 1 (0, 0, 0) (1, 0, 0) (0, 1, 0)).cells ∧
      (create_cuboid_from_corners p1 p2).cells.length = 6 ∧
      ∀ cell ∈ (create_cuboid_from_corners p1 p2).cells, cell.length = 4) := by
  constructor
  · intro l w h center ua va wa
    refine ⟨by simp [create_cuboid_from_dimensions, cube_corners], rfl, rfl, ?_⟩
    intro cell hc
    simp only [create_cuboid_from_dimensions, cube_face_cells,
      List.mem_cons, List.not_mem_nil, or_false] at hc
    rcases hc with h | h | h | h | h | h <;> subst h <;> rfl
  · intro p1 p2
    refine ⟨rfl, rfl, rfl, ?_⟩
    intro cell hc
    simp only [create_cuboid_from_corners, cube_face_cells,
      List.mem_cons, List.not_mem_nil, or_false] at hc
    rcases hc with h | h | h | h | h | h <;> subst h <;> rfl

/-- C6: the literal LINE scenario of spec §8 — an ENTITIES section holding
the tag pairs `0/LINE, 8/0, 10/1.0, 20/2.0, 30/0.0, 11/3.0, 21/4.0, 31/0.0`
then `0/ENDSEC` parses to exactly one Line with start `(1,2,0)` and end
`(3,4,0)`. -/
theorem dxf_line_scenario :
    parse_dxf [("0"), ("SECTION"), ("2"), ("ENTITIES"),
               ("0"), ("LINE"), ("8"), ("0"),
               ("10"), ("1.0"), ("20"), ("2.0"), ("30"), ("0.0"),
               ("11"), ("3.0"), ("21"), ("4.0"), ("31"), ("0.0"),
               ("0"), ("ENDSEC")]
      = [Shape.line ("0") 256 (1, 2, 0) (3, 4, 0)] := by decide

theorem finalize_lwpolyline (acc : EAcc) :
    finalize_entity ("LWPOLYLINE") acc
      = some (Shape.lwpolyline (acc.layer.getD ("0")) (acc.color.getD 256)
          (acc.points.filterMap (fun p => p.y.map (fun y => (p.x, y, (0 : ℚ)))))
          (acc.closed.getD false)) := rfl

theorem process_tag_lwpolyline_code10 (acc : EAcc) (s : String) :
    process_tag ("LWPOLYLINE") acc (10, s)
      = match pyFloat s with
        | some q => { acc with points := acc.points ++ [{ x := q, y := none }] }
        | none => acc := rfl

theorem process_entity_tags_lwpolyline (l : List (Int × String)) :
    process_entity_tags (((0 : Int), ("LWPOLYLINE")) :: l)
      = finalize_entity ("LWPOLYLINE")
          ((((0 : Int), ("LWPOLYLINE")) :: l).foldl (process_tag ("LWPOLYLINE")) {}) := rfl

/-- C7: the literal LWPOLYLINE scenario — tags `70/1, 10/0, 20/0, 10/1,
20/0, 10/1, 20/1` yield 3 vertices and `closed = true`; a trailing code-10
tag (a vertex with no `y`) is always silently dropped; a second code-20 for
the same vertex is ignored; bit 0 of code 70 decides the closed flag. -/
theorem lwpolyline_parsing_spec :
    parse_dxf [("0"), ("SECTION"), ("2"), ("ENTITIES"),
               ("0"), ("LWPOLYLINE"), ("70"), ("1"),
               ("10"), ("0"), ("20"), ("0"),
               ("10"), ("1"), ("20"), ("0"),
               ("10"), ("1"), ("20"), ("1"),
               ("0"), ("ENDSEC")]
      = [Shape.lwpolyline ("0") 256 [(0, 0, 0), (1, 0, 0), (1, 1, 0)] true] ∧
    (∀ (rest : List (Int × String)) (s : String),
      process_entity_tags (((0 : Int), ("LWPOLYLINE")) :: (rest ++ [((10 : Int), s)]))
        = process_entity_tags (((0 : Int), ("LWPOLYLINE")) :: rest)) ∧
    process_entity_tags [((0 : Int), ("LWPOLYLINE")), (10, ("0")), (20, ("1")), (20, ("2"))]
      = some (Shape.lwpolyline ("0") 256 [(0, 1, 0)] false) ∧
    process_entity_tags [((0 : Int), ("LWPOLYLINE")), (70, ("2")), (10, ("0")), (20, ("0"))]
      = some (Shape.lwpolyline ("0") 256 [(0, 0, 0)] false) := by
  refine ⟨by decide, ?_, by decide, by decide⟩
  intro rest s
  rw [process_entity_tags_lwpolyline, process_entity_tags_lwpolyline,
    show ((0 : Int), ("LWPOLYLINE")) :: (rest ++ [((10 : Int), s)])
        = (((0 : Int), ("LWPOLYLINE")) :: rest) ++ [((10 : Int), s)] from rfl,
    List.foldl_append, List.foldl_cons, List.foldl_nil,
    process_tag_lwpolyline_code10]
  cases hq : pyFloat s with
  | none => rfl
  | some q =>
    rw [finalize_lwpolyline, finalize_lwpolyline]
    simp

theorem execCmd_preserves_history (c : Cmd) (doc : Doc) :
    (execCmd c doc).2.1.command_stack = doc.command_stack ∧
    (execCmd c doc).2.1.stack_pointer = doc.stack_pointer := by
  cases c with
  | createObject objectId category geomType planeDef props actor =>
    cases actor <;> simp only [execCmd] <;> (repeat' split) <;> constructor <;> trivial
  | deleteObject objId actorToDelete category typeLabel planeDef =>
    cases actorToDelete <;> simp only [execCmd] <;> (repeat' split) <;> constructor <;> trivial
  | setActivePlane oldId newId actor =>
    simp only [execCmd, update_plane_context]
    (repeat' split) <;> constructor <;> trivial

theorem undoCmd_preserves_history (c : Cmd) (doc : Doc) :
    (undoCmd c doc).command_stack = doc.command_stack ∧
    (undoCmd c doc).stack_pointer = doc.stack_pointer := by
  cases c with
  | createObject objectId category geomType planeDef props actor =>
    cases actor <;> exact ⟨rfl, rfl⟩
  | deleteObject objId actorToDelete category typeLabel planeDef =>
    cases actorToDelete <;> cases category <;> simp only [undoCmd] <;>
      (repeat' split) <;> constructor <;> trivial
  | setActivePlane oldId newId actor =>
    exact execCmd_preserves_history _ _

theorem execCmd_ok_eq (c : Cmd) (doc : Doc) : (execCmd c doc).2.2 = cmdOk c := by
  cases c with
  | createObject objectId category geomType planeDef props actor =>
    cases actor <;> rfl
  | deleteObject objId actorToDelete category typeLabel planeDef =>
    cases actorToDelete <;> rfl
  | setActivePlane oldId newId actor => rfl

theorem truncate_redo_pointer (doc : Doc) :
    (truncate_redo doc).stack_pointer = doc.stack_pointer := by
  unfold truncate_redo; split <;> rfl

theorem truncate_redo_stack (doc : Doc) :
    (truncate_redo doc).command_stack
      = doc.command_stack.take (doc.stack_pointer + 1).toNat := by
  unfold truncate_redo
  by_cases h : doc.stack_pointer < (doc.command_stack.length : Int) - 1
  · rw [if_pos h]
  · rw [if_neg h, Eq.comm]
    exact List.take_of_length_le (by omega)

theorem truncate_redo_fields (doc : Doc) :
    (truncate_redo doc).actor_buffer = doc.actor_buffer ∧
    (truncate_redo doc).plane_definitions = doc.plane_definitions ∧
    (truncate_redo doc).active_plane_id = doc.active_plane_id ∧
    (truncate_redo doc).current_plane_origin = doc.current_plane_origin ∧
    (truncate_redo doc).current_plane_u_axis = doc.current_plane_u_axis ∧
    (truncate_redo doc).current_plane_v_axis = doc.current_plane_v_axis ∧
    (truncate_redo doc).object_browser = doc.object_browser ∧
    (truncate_redo doc).browser_active_plane_id = doc.browser_active_plane_id ∧
    (truncate_redo doc).cs = doc.cs := by
  unfold truncate_redo; split <;>
    exact ⟨rfl, rfl, rfl, rfl, rfl, rfl, rfl, rfl, rfl⟩

theorem execute_command_of_ok (doc : Doc) (c : Cmd) (h : cmdOk c = true) :
    execute_command doc c
      = { (execCmd c (truncate_redo doc)).2.1 with
          command_stack := (truncate_redo doc).command_stack
            ++ [(execCmd c (truncate_redo doc)).1],
          stack_pointer := doc.stack_pointer + 1 } := by
  simp only [execute_command]
  rw [execCmd_ok_eq, h, if_pos rfl,
      (execCmd_preserves_history c (truncate_redo doc)).1,
      (execCmd_preserves_history c (truncate_redo doc)).2,
      truncate_redo_pointer]

theorem execute_command_ok_stack (doc : Doc) (c : Cmd) (h : cmdOk c = true) :
    (execute_command doc c).command_stack
      = (truncate_redo doc).command_stack ++ [(execCmd c (truncate_redo doc)).1] := by
  rw [execute_command_of_ok doc c h]

theorem execute_command_ok_pointer (doc : Doc) (c : Cmd) (h : cmdOk c = true) :
    (execute_command doc c).stack_pointer = doc.stack_pointer + 1 := by
  rw [execute_command_of_ok doc c h]

/-- C1 counterexample: with history `[A, B]` and cursor 0, a command that
fails during execute (deleting an id absent from the buffer) still leaves
the history truncated to one entry — the document is not exactly as it was
before the attempt. -/
theorem execute_command_failure_counterexample :
    cmdOk (mkDeleteObjectCommand exDocHist ("ghost")) = false ∧
    (execute_command exDocHist (mkDeleteObjectCommand exDocHist ("ghost"))).command_stack.length = 1 ∧
    exDocHist.command_stack.length = 2 ∧
    execute_command exDocHist (mkDeleteObjectCommand exDocHist ("ghost")) ≠ exDocHist := by
  decide

/-- C1 amended: a command that fails during execute is not appended to the
history and the cursor does not advance, and the resulting document is
exactly what the command's own execute left of the *truncated* document —
the redo branch beyond `cursor + 1` is discarded before the attempt, so the
history is `take (cursor + 1)` of the original rather than untouched. -/
theorem execute_command_failure_behavior (doc : Doc) (c : Cmd)
    (h : (execCmd c (truncate_redo doc)).2.2 = false) :
    execute_command doc c = (execCmd c (truncate_redo doc)).2.1 ∧
    (execute_command doc c).stack_pointer = doc.stack_pointer ∧
    (execute_command doc c).command_stack
      = doc.command_stack.take (doc.stack_pointer + 1).toNat := by
  have heq : execute_command doc c = (execCmd c (truncate_redo doc)).2.1 := by
    simp only [execute_command]
    rw [h]
    simp
  refine ⟨heq, ?_, ?_⟩
  · rw [heq, (execCmd_preserves_history c (truncate_redo doc)).2, truncate_redo_pointer]
  · rw [heq, (execCmd_preserves_history c (truncate_redo doc)).1, truncate_redo_stack]

/-- C1 witness: the amended failure behavior at the concrete two-entry
history document. -/
theorem execute_command_failure_behavior_witness :
    (execCmd (mkDeleteObjectCommand exDocHist ("ghost")) (truncate_redo exDocHist)).2.2 = false ∧
    (execute_command exDocHist (mkDeleteObjectCommand exDocHist ("ghost"))).stack_pointer
      = exDocHist.stack_pointer ∧
    (execute_command exDocHist (mkDeleteObjectCommand exDocHist ("ghost"))).command_stack
      = exDocHist.command_stack.take (exDocHist.stack_pointer + 1).toNat :=
  ⟨by decide,
   (execute_command_failure_behavior exDocHist (mkDeleteObjectCommand exDocHist ("ghost"))
     (by decide)).2⟩

/-- C3 counterexample: a deletion request for "Global" in the
Coordinate Systems category reaches the manager and removes the Global
system — the document layer does not reject it. -/
theorem global_cs_delete_counterexample :
    dcontains emptyDoc.cs.systems ("Global") = true ∧
    dcontains (on_delete_object_requested emptyDoc ("Global") ("Coordinate Systems")).cs.systems
      ("Global") = false := by
  decide

/-- C3 amended: the document layer passes every coordinate-system deletion
request straight to the manager, which removes any existing title — Global
and the active system included; only deletion of the active *plane* is
rejected at the document layer (the Global/active-CS guard lives in the
presentation-layer context menu, outside the modeled core). -/
theorem delete_request_behavior (doc : Doc) (title objId cat : String)
    (h1 : dcontains doc.cs.systems title = true)
    (h2 : cat ≠ ("Coordinate Systems"))
    (h3 : doc.active_plane_id = some objId) :
    (on_delete_object_requested doc title ("Coordinate Systems")).cs.systems
      = dremove doc.cs.systems title ∧
    on_delete_object_requested doc objId cat = doc := by
  constructor
  · simp only [on_delete_object_requested, delete_cs, h1]
    simp
  · simp only [on_delete_object_requested]
    rw [if_neg (by simpa using h2), if_pos (by simp [h3])]

/-- C3 witness: the amended behavior at a document whose active plane is
"P", deleting the Global system and requesting deletion of "P". -/
theorem delete_request_behavior_witness :
    dcontains exDocActive.cs.systems ("Global") = true ∧
    (on_delete_object_requested exDocActive ("Global") ("Coordinate Systems")).cs.systems
      = dremove exDocActive.cs.systems ("Global") ∧
    on_delete_object_requested exDocActive ("P") ("Planes") = exDocActive := by
  have h := delete_request_behavior exDocActive ("Global") ("P") ("Planes")
    (by decide) (by decide) (by decide)
  exact ⟨by decide, h.1, h.2⟩

/-- C2: applying a new command with the cursor behind the last entry first
truncates the history to `cursor + 1` entries; concretely, after applying A
and B, undoing once, and applying C, the history holds C where B used to be
(B's entry is discarded) and a subsequent redo fails — the "Nothing to redo"
warning branch, the `InvalidOperationError` failure indication of the spec. -/
theorem redo_branch_discard (doc : Doc) (A B C : Cmd)
    (hA : cmdOk A = true) (hB : cmdOk B = true) (hC : cmdOk C = true)
    (hlo : -1 ≤ doc.stack_pointer)
    (hhi : doc.stack_pointer ≤ (doc.command_stack.length : Int) - 1) :
    ∃ doc3,
      on_undo (execute_command (execute_command doc A) B) = some doc3 ∧
      (execute_command (execute_command doc A) B).command_stack
        = (execute_command doc A).command_stack
          ++ [(execCmd B (execute_command doc A)).1] ∧
      (execute_command doc3 C).command_stack
        = (execute_command doc A).command_stack
          ++ [(execCmd C (truncate_redo doc3)).1] ∧
      (execute_command doc3 C).command_stack.length
        = (execute_command (execute_command doc A) B).command_stack.length ∧
      on_redo (execute_command doc3 C) = none := by
  have htrlen : ((truncate_redo doc).command_stack.length : Int) = doc.stack_pointer + 1 := by
    rw [truncate_redo_stack]
    simp only [List.length_take]
    omega
  set doc1 := execute_command doc A with hdoc1
  have hs1 : doc1.command_stack
      = (truncate_redo doc).command_stack ++ [(execCmd A (truncate_redo doc)).1] :=
    execute_command_ok_stack doc A hA
  have hp1 : doc1.stack_pointer = doc.stack_pointer + 1 :=
    execute_command_ok_pointer doc A hA
  have hlen1 : (doc1.command_stack.length : Int) = doc.stack_pointer + 2 := by
    rw [hs1]
    simp only [List.length_append, List.length_cons, List.length_nil]
    push_cast
    omega
  have htr1 : truncate_redo doc1 = doc1 := by
    unfold truncate_redo
    rw [if_neg (by omega)]
  set doc2 := execute_command doc1 B with hdoc2
  have hs2 : doc2.command_stack = doc1.command_stack ++ [(execCmd B doc1).1] := by
    have h := execute_command_ok_stack doc1 B hB
    rwa [htr1] at h
  have hp2 : doc2.stack_pointer = doc.stack_pointer + 2 := by
    rw [execute_command_ok_pointer doc1 B hB, hp1]
    omega
  have hlen2 : (doc2.command_stack.length : Int) = doc.stack_pointer + 3 := by
    rw [hs2]
    simp only [List.length_append, List.length_cons, List.length_nil]
    push_cast
    omega
  have hidxNat : doc2.stack_pointer.toNat = doc1.command_stack.length := by omega
  have hidx : doc2.command_stack.get? doc2.stack_pointer.toNat = some (execCmd B doc1).1 := by
    rw [hs2, hidxNat]
    exact List.get?_concat_length _ _
  have hundo : on_undo doc2
      = some { undoCmd (execCmd B doc1).1 doc2 with
               stack_pointer := doc2.stack_pointer - 1 } := by
    unfold on_undo
    rw [if_pos (by omega), hidx]
  set doc3 : Doc := { undoCmd (execCmd B doc1).1 doc2 with
                      stack_pointer := doc2.stack_pointer - 1 } with hdoc3
  have hs3 : doc3.command_stack = doc2.command_stack := (undoCmd_preserves_history _ _).1
  have hp3 : doc3.stack_pointer = doc.stack_pointer + 1 := by
    show doc2.stack_pointer - 1 = _
    omega
  have hlen3 : (doc3.command_stack.length : Int) = doc.stack_pointer + 3 := by
    rw [hs3]
    exact hlen2
  have htr3 : (truncate_redo doc3).command_stack = doc1.command_stack := by
    rw [truncate_redo_stack, hs3, hs2]
    have hn : (doc3.stack_pointer + 1).toNat = doc1.command_stack.length := by omega
    rw [hn]
    exact List.take_left _ _
  have hs4 : (execute_command doc3 C).command_stack
      = doc1.command_stack ++ [(execCmd C (truncate_redo doc3)).1] := by
    rw [execute_command_ok_stack doc3 C hC, htr3]
  have hp4 : (execute_command doc3 C).stack_pointer = doc.stack_pointer + 2 := by
    rw [execute_command_ok_pointer doc3 C hC, hp3]
    omega
  have hlen4 : ((execute_command doc3 C).command_stack.length : Int) = doc.stack_pointer + 3 := by
    rw [hs4]
    simp only [List.length_append, List.length_cons, List.length_nil]
    push_cast
    omega
  have hredo : on_redo (execute_command doc3 C) = none := by
    unfold on_redo
    rw [if_neg (by omega)]
  exact ⟨doc3, hundo, hs2, hs4, by omega, hredo⟩

/-- C2 witness: the scenario instantiated with three concrete create
commands on a fresh document. -/
theorem redo_branch_discard_witness :
    cmdOk exCmdA = true ∧ (-1 : Int) ≤ emptyDoc.stack_pointer ∧
    (∃ doc3,
      on_undo (execute_command (execute_command emptyDoc exCmdA) exCmdB) = some doc3 ∧
      (execute_command (execute_command emptyDoc exCmdA) exCmdB).command_stack
        = (execute_command emptyDoc exCmdA).command_stack
          ++ [(execCmd exCmdB (execute_command emptyDoc exCmdA)).1] ∧
      (execute_command doc3 exCmdC).command_stack
        = (execute_command emptyDoc exCmdA).command_stack
          ++ [(execCmd exCmdC (truncate_redo doc3)).1] ∧
      (execute_command doc3 exCmdC).command_stack.length
        = (execute_command (execute_command emptyDoc exCmdA) exCmdB).command_stack.length ∧
      on_redo (execute_command doc3 exCmdC) = none) :=
  ⟨by decide, by decide,
   redo_branch_discard emptyDoc exCmdA exCmdB exCmdC (by decide) (by decide) (by decide)
     (by decide) (by decide)⟩

theorem dget_set_actor_highlight (buf : List (String × Actor)) (k k' : String)
    (col : ℚ × ℚ × ℚ) (op : ℚ) :
    dget (set_actor_highlight buf k col op) k'
      = (dget buf k').map
          (fun a => if k' = k then { a with color := col, opacity := op } else a) := by
  induction buf with
  | nil => rfl
  | cons p rest ih =>
    obtain ⟨pk, pa⟩ := p
    by_cases hpk : pk = k <;> by_cases hk' : pk = k' <;>
      simp_all [dget, set_actor_highlight]

theorem dget_set_actor_highlight_ne (buf : List (String × Actor)) (k k' : String)
    (col : ℚ × ℚ × ℚ) (op : ℚ) (h : k' ≠ k) :
    dget (set_actor_highlight buf k col op) k' = dget buf k' := by
  rw [dget_set_actor_highlight]
  cases dget buf k' <;> simp [h]

theorem dget_set_actor_highlight_shape (buf : List (String × Actor)) (k k' : String)
    (col : ℚ × ℚ × ℚ) (op : ℚ) :
    (dget (set_actor_highlight buf k col op) k').map actorShape
      = (dget buf k').map actorShape := by
  rw [dget_set_actor_highlight]
  cases dget buf k' with
  | none => rfl
  | some a => by_cases h : k' = k <;> simp [h, actorShape]

theorem dcontains_set_actor_highlight (buf : List (String × Actor)) (k k' : String)
    (col : ℚ × ℚ × ℚ) (op : ℚ) :
    dcontains (set_actor_highlight buf k col op) k' = dcontains buf k' := by
  unfold dcontains
  rw [dget_set_actor_highlight]
  cases dget buf k' <;> rfl

theorem execCmd_setActivePlane_no_def (d : Doc) (oldId : Option String) (target : String)
    (act : Option Actor) (hpd : dget d.plane_definitions target = none) :
    ∃ buf',
      execCmd (Cmd.setActivePlane oldId (some target) act) d
        = (Cmd.setActivePlane oldId (some target) act,
           { d with actor_buffer := buf' }, act.isSome) ∧
      (∀ idx, idx ≠ target → oldId ≠ some idx → dget buf' idx = dget d.actor_buffer idx) ∧
      (∀ idx, (dget buf' idx).map actorShape = (dget d.actor_buffer idx).map actorShape) := by
  cases oldId with
  | none =>
    by_cases h2 : dcontains d.actor_buffer target = true
    · refine ⟨set_actor_highlight d.actor_buffer target (0, 1, 1) (2/5), ?_, ?_, ?_⟩
      · simp only [execCmd]
        rw [if_pos h2]
        rw [hpd]
      · intro idx h1 _
        exact dget_set_actor_highlight_ne _ _ _ _ _ h1
      · intro idx
        exact dget_set_actor_highlight_shape _ _ _ _ _
    · refine ⟨d.actor_buffer, ?_, fun idx _ _ => rfl, fun idx => rfl⟩
      simp only [execCmd]
      rw [if_neg h2]
  | some oid =>
    by_cases h1 : dcontains d.actor_buffer oid = true
    · by_cases h2 : dcontains d.actor_buffer target = true
      · refine ⟨set_actor_highlight
            (set_actor_highlight d.actor_buffer oid (4/5, 4/5, 1) (1/5))
            target (0, 1, 1) (2/5), ?_, ?_, ?_⟩
        · simp only [execCmd]
          rw [if_pos h1]
          rw [dcontains_set_actor_highlight, if_pos h2]
          rw [hpd]
        · intro idx hne hold
          rw [dget_set_actor_highlight_ne _ _ _ _ _ hne,
              dget_set_actor_highlight_ne _ _ _ _ _ (fun he => hold (by rw [he]))]
        · intro idx
          rw [dget_set_actor_highlight_shape, dget_set_actor_highlight_shape]
      · refine ⟨set_actor_highlight d.actor_buffer oid (4/5, 4/5, 1) (1/5), ?_, ?_, ?_⟩
        · simp only [execCmd]
          rw [if_pos h1]
          rw [dcontains_set_actor_highlight, if_neg h2]
        · intro idx _ hold
          exact dget_set_actor_highlight_ne _ _ _ _ _ (fun he => hold (by rw [he]))
        · intro idx
          exact dget_set_actor_highlight_shape _ _ _ _ _
    · by_cases h2 : dcontains d.actor_buffer target = true
      · refine ⟨set_actor_highlight d.actor_buffer target (0, 1, 1) (2/5), ?_, ?_, ?_⟩
        · simp only [execCmd]
          rw [if_neg h1, if_pos h2]
          rw [hpd]
        · intro idx h1' _
          exact dget_set_actor_highlight_ne _ _ _ _ _ h1'
        · intro idx
          exact dget_set_actor_highlight_shape _ _ _ _ _
      · refine ⟨d.actor_buffer, ?_, fun idx _ _ => rfl, fun idx => rfl⟩
        simp only [execCmd]
        rw [if_neg h1, if_neg h2]

/-- C10: `SetActivePlane` on an id that is in the actor buffer but has no
stored plane definition succeeds (no error path: the command is recorded in
history and the cursor advances), leaves `active_plane_id`, the stored
current plane context, the plane map, the browser, and the manager
untouched, and modifies at most the highlight (color/opacity) of the
previously active and targeted actors. -/
theorem set_active_plane_no_definition (doc : Doc) (target : String)
    (hbuf : dcontains doc.actor_buffer target = true)
    (hpd : dget doc.plane_definitions target = none) :
    (execute_command doc (mkSetActivePlaneCommand doc (some target))).active_plane_id
        = doc.active_plane_id ∧
    (execute_command doc (mkSetActivePlaneCommand doc (some target))).current_plane_origin
        = doc.current_plane_origin ∧
    (execute_command doc (mkSetActivePlaneCommand doc (some target))).current_plane_u_axis
        = doc.current_plane_u_axis ∧
    (execute_command doc (mkSetActivePlaneCommand doc (some target))).current_plane_v_axis
        = doc.current_plane_v_axis ∧
    (execute_command doc (mkSetActivePlaneCommand doc (some target))).plane_definitions
        = doc.plane_definitions ∧
    (execute_command doc (mkSetActivePlaneCommand doc (some target))).object_browser
        = doc.object_browser ∧
    (execute_command doc (mkSetActivePlaneCommand doc (some target))).browser_active_plane_id
        = doc.browser_active_plane_id ∧
    (execute_command doc (mkSetActivePlaneCommand doc (some target))).cs = doc.cs ∧
    (execute_command doc (mkSetActivePlaneCommand doc (some target))).command_stack
        = (truncate_redo doc).command_stack ++ [mkSetActivePlaneCommand doc (some target)] ∧
    (execute_command doc (mkSetActivePlaneCommand doc (some target))).stack_pointer
        = doc.stack_pointer + 1 ∧
    (∀ idx, idx ≠ target → doc.active_plane_id ≠ some idx →
      dget (execute_command doc (mkSetActivePlaneCommand doc (some target))).actor_buffer idx
        = dget doc.actor_buffer idx) ∧
    (∀ idx,
      (dget (execute_command doc
          (mkSetActivePlaneCommand doc (some target))).actor_buffer idx).map actorShape
        = (dget doc.actor_buffer idx).map actorShape) := by
  obtain ⟨hab, hpdf, hapi, hcpo, hcpu, hcpv, hob, hbapi, hcs⟩ := truncate_redo_fields doc
  obtain ⟨buf', hexec, hne, hshape⟩ :=
    execCmd_setActivePlane_no_def (truncate_redo doc) doc.active_plane_id target
      (dget doc.actor_buffer target) (by rw [hpdf]; exact hpd)
  have hmk : mkSetActivePlaneCommand doc (some target)
      = Cmd.setActivePlane doc.active_plane_id (some target)
          (dget doc.actor_buffer target) := rfl
  have hok : (dget doc.actor_buffer target).isSome = true := hbuf
  have hmain : execute_command doc (mkSetActivePlaneCommand doc (some target))
      = { truncate_redo doc with
          actor_buffer := buf',
          command_stack := (truncate_redo doc).command_stack
            ++ [mkSetActivePlaneCommand doc (some target)],
          stack_pointer := (truncate_redo doc).stack_pointer + 1 } := by
    simp only [execute_command, hmk, hexec, hok, if_true]
  refine ⟨?_, ?_, ?_, ?_, ?_, ?_, ?_, ?_, ?_, ?_, ?_, ?_⟩
  · rw [hmain]; exact hapi
  · rw [hmain]; exact hcpo
  · rw [hmain]; exact hcpu
  · rw [hmain]; exact hcpv
  · rw [hmain]; exact hpdf
  · rw [hmain]; exact hob
  · rw [hmain]; exact hbapi
  · rw [hmain]; exact hcs
  · rw [hmain]
  · rw [hmain]
    show (truncate_redo doc).stack_pointer + 1 = doc.stack_pointer + 1
    rw [truncate_redo_pointer]
  · intro idx h1 h2
    rw [hmain]
    show dget buf' idx = dget doc.actor_buffer idx
    rw [hne idx h1 h2, hab]
  · intro idx
    rw [hmain]
    show (dget buf' idx).map actorShape = (dget doc.actor_buffer idx).map actorShape
    rw [hshape idx, hab]

/-- C10 witness: the frame effect at a concrete document holding one
registered object "p1" with no plane definition. -/
theorem set_active_plane_no_definition_witness :
    dcontains exDocC10.actor_buffer ("p1") = true ∧
    (execute_command exDocC10 (mkSetActivePlaneCommand exDocC10 (some ("p1")))).active_plane_id
      = exDocC10.active_plane_id ∧
    (execute_command exDocC10 (mkSetActivePlaneCommand exDocC10 (some ("p1")))).current_plane_u_axis
      = exDocC10.current_plane_u_axis :=
  ⟨by decide,
   (set_active_plane_no_definition exDocC10 ("p1") (by decide) (by decide)).1,
   (set_active_plane_no_definition exDocC10 ("p1") (by decide) (by decide)).2.2.1⟩

end Acri
